import Mathlib

/-! Verification development for the Menengai routing/logistics uploader
(`app2.py`).

The Python source is shallowly embedded: pandas dataframes become lists of
records, Python floats become exact rationals, remote HTTP responses become
explicit data passed to the functions, and the transcendental haversine
distance (together with the OSRM polyline lookup and the distance pre-sort,
on whose values no verified property depends) is abstracted as a parameter.
Presentation-only behaviour (Streamlit widgets, progress messages, debug
output) is outside the embedding.
-/

deriving instance DecidableEq for Except

/-- Python `str.join`: the strings of the list concatenated with the
separator between consecutive elements. -/
def pyJoin (sep : String) : List String → String
  | [] => ""
  | [x] => x
  | x :: y :: rest => x ++ sep ++ pyJoin sep (y :: rest)

/-- Substring test on character lists: some suffix of `s` has `pat` as a
prefix.  This models Python's `in` operator on strings, `str.contains` with a
literal pattern, and `re.escape`-protected containment. -/
def listContains (s pat : List Char) : Bool :=
  s.tails.any (fun t => pat.isPrefixOf t)

/-- Substring test on strings (model of Python `in`). -/
def strContains (s pat : String) : Bool :=
  listContains s.toList pat.toList

/-- Insertion of a string into a `≤`-sorted list of strings. -/
def insertSorted (x : String) : List String → List String
  | [] => [x]
  | y :: rest => if x ≤ y then x :: y :: rest else y :: insertSorted x rest

/-- Model of Python `sorted` on strings.  The inputs it is applied to carry no
duplicates and string order is total, so any correct sort yields exactly the
Python result. -/
def sortStrings : List String → List String
  | [] => []
  | x :: rest => insertSorted x (sortStrings rest)

/-- Truncation of a rational toward zero, modelling Python `int(...)` applied
to a finite float. -/
def pyInt (q : Rat) : Int := Int.tdiv q.num (q.den : Int)

/-- Whitespace characters matched by the regex class `\s` and stripped by
Python's `str.strip()` (ASCII). -/
def isSpaceCh (c : Char) : Bool :=
  decide (c = ' ' ∨ c = '\t' ∨ c = '\n' ∨ c = '\r' ∨ c = Char.ofNat 11 ∨ c = Char.ofNat 12)

/-- Strip of leading and trailing whitespace, modelling Python `str.strip()`
(ASCII whitespace). -/
def pyStripL (l : List Char) : List Char :=
  ((l.dropWhile isSpaceCh).reverse.dropWhile isSpaceCh).reverse

/-- String wrapper for `pyStripL`. -/
def pyStrip (s : String) : String := String.mk (pyStripL s.toList)

/-- Python `str.upper()` (ASCII model). -/
def pyUpper (s : String) : String := String.mk (s.toList.map Char.toUpper)

/-- Split on a non-empty separator, non-overlapping and left to right,
modelling Python `str.split(sep)`; `fuel` bounds the recursion (length of the
input suffices) and `cur` accumulates the current piece reversed. -/
def pySplitAux (sep : List Char) : Nat → List Char → List Char → List (List Char)
  | _, cur, [] => [cur.reverse]
  | 0, cur, cs => [cur.reverse ++ cs]
  | fuel + 1, cur, c :: cs =>
    if sep.isPrefixOf (c :: cs) then
      cur.reverse :: pySplitAux sep fuel [] ((c :: cs).drop sep.length)
    else
      pySplitAux sep fuel (c :: cur) cs

/-- Python `str.split(sep)` on strings (non-empty separator). -/
def pySplit (s sep : String) : List String :=
  (pySplitAux sep.toList s.toList.length [] s.toList).map String.mk

/-- Replacement of every non-overlapping occurrence of a non-empty pattern,
left to right, modelling Python `str.replace`. -/
def pyReplaceAux (pat rep : List Char) : Nat → List Char → List Char
  | _, [] => []
  | 0, cs => cs
  | fuel + 1, c :: cs =>
    if pat.isPrefixOf (c :: cs) then
      rep ++ pyReplaceAux pat rep fuel ((c :: cs).drop pat.length)
    else
      c :: pyReplaceAux pat rep fuel cs

/-- Python `str.replace` on strings (non-empty pattern). -/
def pyReplace (s pat rep : String) : String :=
  String.mk (pyReplaceAux pat.toList rep.toList s.toList.length s.toList)

/-- Numeric value of a list of decimal digit characters. -/
def digitsVal (l : List Char) : Nat :=
  l.foldl (fun a c => a * 10 + (c.toNat - 48)) 0

/-- Model of Python `float(...)` on a string, restricted to finite decimal
literals: optional surrounding whitespace and sign, an integer and/or
fractional part, and an optional decimal exponent.  The special floats
(`inf`, `nan`) and digit-group underscores that Python also accepts have no
rational counterpart and are outside the model; no settled claim depends on
them. -/
def pyFloat (s : String) : Option Rat :=
  let t0 := pyStripL s.toList
  let sign : Rat := if t0.headD ' ' = '-' then -1 else 1
  let t1 := if t0.headD ' ' = '-' ∨ t0.headD ' ' = '+' then t0.drop 1 else t0
  let ip := t1.takeWhile Char.isDigit
  let t2 := t1.dropWhile Char.isDigit
  let fp := if t2.headD ' ' = '.' then (t2.drop 1).takeWhile Char.isDigit else []
  let t3 := if t2.headD ' ' = '.' then (t2.drop 1).dropWhile Char.isDigit else t2
  if ip = [] ∧ fp = [] then none
  else
    let mant : Rat := sign * ((digitsVal ip : Rat) + (digitsVal fp : Rat) / ((10 : Rat) ^ fp.length))
    match t3 with
    | [] => some mant
    | e :: r =>
      if e = 'e' ∨ e = 'E' then
        let esign : Int := if r.headD ' ' = '-' then -1 else 1
        let r1 := if r.headD ' ' = '-' ∨ r.headD ' ' = '+' then r.drop 1 else r
        let ed := r1.takeWhile Char.isDigit
        if ed = [] ∨ r1.dropWhile Char.isDigit ≠ [] then none
        else some (mant * (10 : Rat) ^ (esign * (digitsVal ed : Int)))
      else none

/-- Characters kept by `normalize_plate`: ASCII uppercase letters and digits
(the complement of the substituted class `[^A-Z0-9]`). -/
def plateKeep (c : Char) : Bool :=
  decide (('A' ≤ c ∧ c ≤ 'Z') ∨ ('0' ≤ c ∧ c ≤ '9'))

/-- List-level core of `normalize_plate`: uppercase, then keep only ASCII
letters and digits. -/
def normChars (l : List Char) : List Char :=
  (l.map Char.toUpper).filter plateKeep

/-- Model of `normalize_plate` from the source:
`re.sub(r"[^A-Z0-9]", "", s.upper())` (string inputs; the `isinstance` guard
is subsumed by the type). -/
def normalize_plate (s : String) : String :=
  String.mk (normChars s.toList)

/-- Word characters for the regex boundary `\b` (ASCII model of `\w`). -/
def isWordCh (c : Char) : Bool :=
  c.isAlpha || c.isDigit || decide (c = '_')

/-- Letters matched by `[A-Z]` under `re.IGNORECASE`. -/
def letterCh (c : Char) : Bool :=
  decide (('A' ≤ c ∧ c ≤ 'Z') ∨ ('a' ≤ c ∧ c ≤ 'z'))

/-- Characters of the capture class `[A-Z0-9\- ]` under `re.IGNORECASE`. -/
def p1ClassCh (c : Char) : Bool :=
  letterCh c || c.isDigit || decide (c = '-' ∨ c = ' ')

/-- Case-insensitive literal match; returns the remaining input on success. -/
def matchLitI : List Char → List Char → Option (List Char)
  | [], cs => some cs
  | _ :: _, [] => none
  | p :: ps, c :: cs => if p.toLower = c.toLower then matchLitI ps cs else none

/-- Suffixes of `cs` obtained by consuming `k` leading `\s` characters, in
the backtracking order of a greedy `\s*` (maximal `k` first). -/
def spacesSuffixes (cs : List Char) : List (List Char) :=
  let k := (cs.takeWhile isSpaceCh).length
  (List.range (k + 1)).map (fun j => cs.drop (k - j))

/-- Alternatives of `(?:Number|No\.?|#)?` at the given input, in the order
the regex engine tries them (each alternative in turn, the empty option
last). -/
def labelSuffixes (cs : List Char) : List (List Char) :=
  (["number", "no.", "no", "#"].filterMap (fun l => matchLitI l.toList cs)) ++ [cs]

/-- Alternatives of `[:\-]?`: consume one `:` or `-` when present, then the
empty option. -/
def colonSuffixes (cs : List Char) : List (List Char) :=
  (match cs with
   | c :: rest => if c = ':' ∨ c = '-' then [rest] else []
   | [] => []) ++ [cs]

/-- Continuation of pattern 1 after the literal `Truck`:
`\s*(?:Number|No\.?|#)?\s*[:\-]?\s*([A-Z0-9\- ]{4,})`.  The final greedy
`{4,}` capture has nothing after it, so it always takes the whole class run,
which must have length at least 4.  Returns the captured group. -/
def p1AfterTruck (cs : List Char) : Option (List Char) :=
  (spacesSuffixes cs).findSome? (fun a =>
    (labelSuffixes a).findSome? (fun b =>
      (spacesSuffixes b).findSome? (fun c =>
        (colonSuffixes c).findSome? (fun d =>
          (spacesSuffixes d).findSome? (fun e =>
            let run := e.takeWhile p1ClassCh
            if 4 ≤ run.length then some run else none)))))

/-- Leftmost search for pattern 1
(`Truck\s*(?:Number|No\.?|#)?\s*[:\-]?\s*([A-Z0-9\- ]{4,})`, IGNORECASE):
each start position is tried from the left; the literal `Truck` must match
there, then the backtracking continuation. -/
def p1Search : List Char → Option (List Char)
  | [] => none
  | c :: rest =>
    match matchLitI ['t', 'r', 'u', 'c', 'k'] (c :: rest) with
    | some after =>
      match p1AfterTruck after with
      | some g => some g
      | none => p1Search rest
    | none => p1Search rest

/-- Attempt of pattern 2 (`\b([A-Z]{2,3}\s*\d{3,4}\s*[A-Z])\b`, IGNORECASE)
anchored at the start of `cs`; the leading boundary is checked by the caller.
Greedy counts are tried longest first; the inner `\s*` are forced because
neither digits nor letters are whitespace. -/
def p2At (cs : List Char) : Option (List Char) :=
  [3, 2].findSome? (fun nl =>
    let ls := cs.take nl
    if (ls.length == nl) && ls.all letterCh then
      let afterL := cs.drop nl
      let sp1 := afterL.takeWhile isSpaceCh
      let afterS1 := afterL.drop sp1.length
      [4, 3].findSome? (fun nd =>
        let ds := afterS1.take nd
        if (ds.length == nd) && ds.all Char.isDigit then
          let afterD := afterS1.drop nd
          let sp2 := afterD.takeWhile isSpaceCh
          match afterD.drop sp2.length with
          | z :: rest2 =>
            if letterCh z && !(isWordCh (rest2.headD ' ')) then
              some (ls ++ sp1 ++ ds ++ sp2 ++ [z])
            else none
          | [] => none
        else none)
    else none)

/-- Leftmost search for pattern 2; `prev` is the character before the
current position, used for the leading word boundary `\b` (the captured span
starts with a letter, so the boundary holds exactly when `prev` is absent or
a non-word character). -/
def p2Search (prev : Option Char) : List Char → Option (List Char)
  | [] => none
  | c :: rest =>
    let bOk := match prev with
      | none => true
      | some p => !(isWordCh p)
    match (if bOk then p2At (c :: rest) else none) with
    | some g => some g
    | none => p2Search (some c) rest

/-- Core of `extract_truck_number_from_text` on character lists: pattern 1 is
searched over the whole text first, then pattern 2; the first pattern with a
match anywhere wins and its captured group is normalized. -/
def extractTruckL (cs : List Char) : Option String :=
  match p1Search cs with
  | some g => some (normalize_plate (String.mk g))
  | none =>
    match p2Search none cs with
    | some g => some (normalize_plate (String.mk g))
    | none => none

/-- Model of `extract_truck_number_from_text` from the source (string inputs; the
`isinstance` guard is subsumed by the type). -/
def extract_truck_number_from_text (text : String) : Option String :=
  extractTruckL text.toList

/-- Truck-number scan over the raw first column of an orders sheet: the
source loop assigns each row's extraction in turn and breaks at the first
truthy value, so the final value is the first non-empty extraction, or the
last row's extraction when no row yields a non-empty one. -/
def scanTruck : List String → Option String
  | [] => none
  | [r] => extract_truck_number_from_text r
  | r :: s :: rest =>
    match extract_truck_number_from_text r with
    | some v => if v = "" then scanTruck (s :: rest) else some v
    | none => scanTruck (s :: rest)

/-- Fragment of the coordinate string from which the latitude is parsed:
the text before the first `LONG:` (`parts[0]`), with every `LAT:` removed,
stripped, and inner spaces removed. -/
def latFrag (s : String) : String :=
  pyReplace (pyStrip (pyReplace ((pySplit s "LONG:").headD "") "LAT:" "")) " " ""

/-- Fragment from which the longitude is parsed: the piece of the `LONG:`
split at index 1 (`parts[1]`: between the first and second occurrence, or to
the end), stripped, spaces removed. -/
def longFrag (s : String) : String :=
  pyReplace (pyStrip ((pySplit s "LONG:").getD 1 "")) " " ""

/-- Model of `extract_coordinates` from the source: both markers must occur as
substrings, the two fragments are parsed as floats, and any failure (the
`try`/`except`) collapses to `(None, None)`. -/
def extract_coordinates (s : String) : Option Rat × Option Rat :=
  if strContains s "LAT:" ∧ strContains s "LONG:" then
    match pyFloat (latFrag s), pyFloat (longFrag s) with
    | some la, some lo => (some la, some lo)
    | _, _ => (none, none)
  else (none, none)

/-- Specification-side predicate, written from the spec's words for
comparison with the source: the string is of the exact form
`LAT:<num>LONG:<num>` (whitespace-tolerant, so whitespace is discarded before
checking the shape). -/
def specExactCoordForm (s : String) : Bool :=
  let t := s.toList.filter (fun c => !(isSpaceCh c))
  if "LAT:".toList.isPrefixOf t then
    match pySplit (String.mk (t.drop 4)) "LONG:" with
    | [a, b] => (pyFloat a).isSome && (pyFloat b).isSome
    | _ => false
  else false

/-- Raw detail row of an orders sheet, after header normalization.  Cells are
modelled as strings (`astype(str)` is applied by the source before every use);
`customerId` is `none` for a NaN cell (the `notna` filter), and `invoice` is
`none` for a NaN cell (the `pd.notna` filter inside the join).  Key cells
other than the customer id are modelled as plain strings; NaN-valued group
keys (which pandas' groupby would drop) are outside the model and no settled
claim involves them. -/
structure InRow where
  customerId : Option String := some ""
  customerName : String := ""
  location : String := ""
  coords : String := ""
  rep : String := ""
  tonnageRaw : String := ""
  amountRaw : String := ""
  invoice : Option String := none
deriving DecidableEq

/-- Orders sheet: the raw first column (for truck extraction) plus the detail
table.  The four required columns are always present (their absence raises
the explicit `Missing required columns` error before everything modelled
here); presence of the optional columns is tracked by flags. -/
structure OrderTable where
  preamble : List String := []
  hasTonnage : Bool := true
  hasAmount : Bool := true
  hasInvoice : Bool := true
  hasRep : Bool := true
  rows : List InRow := []
deriving DecidableEq

/-- Row after the numeric coercion step. -/
structure WorkRow where
  customerId : String := ""
  customerName : String := ""
  location : String := ""
  coords : String := ""
  rep : String := ""
  tonnage : Rat := 0
  amount : Rat := 0
  invoice : Option String := none
deriving DecidableEq

/-- Numeric coercion of one cell:
`pd.to_numeric(cell.replace(",", "").strip(), errors="coerce").fillna(0)`. -/
def coerceNum (s : String) : Rat :=
  (pyFloat (pyStrip (pyReplace s "," ""))).getD 0

/-- Coercion of a filtered row; an absent TONNAGE or AMOUNT column is the
constant zero column assigned by the source's `else` branch. -/
def coerceRow (hT hA : Bool) (r : InRow) : WorkRow :=
  { customerId := r.customerId.getD ""
    customerName := r.customerName
    location := r.location
    coords := r.coords
    rep := r.rep
    tonnage := if hT then coerceNum r.tonnageRaw else 0
    amount := if hA then coerceNum r.amountRaw else 0
    invoice := r.invoice }

/-- Grouping key of the `groupby`:
(CUSTOMER ID, CUSTOMER NAME, LOCATION, LOCATION COORDINATES, REP). -/
abbrev GroupKey := String × String × String × String × String

/-- Key of a working row. -/
def wKey (r : WorkRow) : GroupKey :=
  (r.customerId, r.customerName, r.location, r.coords, r.rep)

/-- Aggregated row before coordinate attachment. -/
structure GroupedRow where
  customerId : String := ""
  customerName : String := ""
  location : String := ""
  coords : String := ""
  rep : String := ""
  tonnage : Rat := 0
  amount : Rat := 0
  invoice : String := ""
deriving DecidableEq

/-- Key of a grouped row. -/
def gKey (g : GroupedRow) : GroupKey :=
  (g.customerId, g.customerName, g.location, g.coords, g.rep)

/-- Distinct grouping keys of the rows.  First-occurrence order is used;
pandas additionally sorts the groups by key, and every property proved below
is insensitive to the order of the groups. -/
def distinctKeys (rows : List WorkRow) : List GroupKey :=
  rows.foldl (fun acc r => if wKey r ∈ acc then acc else acc ++ [wKey r]) []

/-- One aggregated row for the key `k`: sums of TONNAGE and AMOUNT over the
grouped rows, and the comma-space join of the non-NaN invoice cells. -/
def groupRowFor (rows : List WorkRow) (k : GroupKey) : GroupedRow :=
  let g := rows.filter (fun r => decide (wKey r = k))
  { customerId := k.1
    customerName := k.2.1
    location := k.2.2.1
    coords := k.2.2.2.1
    rep := k.2.2.2.2
    tonnage := (g.map WorkRow.tonnage).sum
    amount := (g.map WorkRow.amount).sum
    invoice := pyJoin ", " (g.filterMap WorkRow.invoice) }

/-- The source's `groupby(...).agg(...)`: one aggregated row per distinct
key. -/
def groupRows (rows : List WorkRow) : List GroupedRow :=
  (distinctKeys rows).map (groupRowFor rows)

/-- Final aggregated row, with the parsed coordinate columns. -/
structure AggRow where
  customerId : String := ""
  customerName : String := ""
  location : String := ""
  coords : String := ""
  rep : String := ""
  tonnage : Rat := 0
  amount : Rat := 0
  invoice : String := ""
  lat : Rat := 0
  lon : Rat := 0
deriving DecidableEq

/-- Coordinate attachment and the `dropna` filter: rows whose coordinate
string does not parse are dropped (`extract_coordinates` yields both parts or
neither). -/
def attachCoords (g : GroupedRow) : Option AggRow :=
  match extract_coordinates g.coords with
  | (some la, some lo) =>
    some { customerId := g.customerId
           customerName := g.customerName
           location := g.location
           coords := g.coords
           rep := g.rep
           tonnage := g.tonnage
           amount := g.amount
           invoice := g.invoice
           lat := la
           lon := lo }
  | _ => none

/-- Rows surviving the CUSTOMER ID `notna` filter and the `TOTAL` name
filter (case-insensitive containment). -/
def filteredRows (t : OrderTable) : List InRow :=
  (t.rows.filter (fun r => r.customerId.isSome)).filter
    (fun r => !(strContains (pyUpper r.customerName) "TOTAL"))

/-- Model of `read_excel_to_df` from the source, after header discovery and the
required-columns check (both concern raw spreadsheet shape outside this
model): truck extraction from the raw first column, row filtering, numeric
coercion, grouping, coordinate attachment.  A missing REP column makes the
`groupby` raise `KeyError: 'REP'`, and a missing INVOICE NO column makes the
`.agg` dict raise (pandas rejects aggregation keys that are not columns), the
in-lambda `else ""` guard notwithstanding; both are modelled as errors. -/
def read_excel_to_df (t : OrderTable) : Except String (List AggRow × Option String) :=
  let truck := scanTruck t.preamble
  let rows := (filteredRows t).map (coerceRow t.hasTonnage t.hasAmount)
  if !t.hasRep then .error "KeyError: 'REP'"
  else if !t.hasInvoice then .error "KeyError: Column(s) ['INVOICE NO'] do not exist"
  else .ok ((groupRows rows).filterMap attachCoords, truck)

/-- Accumulating loop of `process_multiple_excels`: non-empty aggregated
tables are collected in order, and truthy truck numbers are collected as a
set (modelled as a duplicate-free list). -/
def readAllAux : List OrderTable → List (List AggRow) → List String →
    Except String (List (List AggRow) × List String)
  | [], gs, ts => .ok (gs, ts)
  | f :: rest, gs, ts =>
    match read_excel_to_df f with
    | .error e => .error e
    | .ok (gdf, truck) =>
      readAllAux rest (if gdf.isEmpty then gs else gs ++ [gdf])
        (match truck with
         | some s => if s = "" then ts else (if s ∈ ts then ts else ts ++ [s])
         | none => ts)

/-- Reading loop over all submitted order files. -/
def readAll (files : List OrderTable) : Except String (List (List AggRow) × List String) :=
  readAllAux files [] []

/-- Cross-file de-duplication by (CUSTOMER ID, LOCATION), keeping the first
occurrence. -/
def dedupAgg (rows : List AggRow) : List AggRow :=
  rows.foldl
    (fun acc r =>
      if acc.any (fun a => decide (a.customerId = r.customerId ∧ a.location = r.location))
      then acc else acc ++ [r]) []

/-- Message of the multiple-truck validation failure. -/
def multiTruckMsg (ts : List String) : String :=
  "Multiple truck numbers found (after normalization): " ++ pyJoin ", " (sortStrings ts)

/-- Message of the no-valid-data failure. -/
def noValidDataMsg : String :=
  "No valid data found in any of the Excel files."

/-- Model of `process_multiple_excels` from the source: read every file, require some
non-empty table, require at most one distinct normalized truck number,
concatenate and de-duplicate. -/
def process_multiple_excels (files : List OrderTable) :
    Except String (List AggRow × Option String) :=
  match readAll files with
  | .error e => .error e
  | .ok (gs, ts) =>
    if gs.isEmpty then .error noValidDataMsg
    else if 1 < ts.length then .error (multiTruckMsg ts)
    else .ok (dedupAgg gs.flatten, ts.head?)

/-- Vehicle asset: a row of the assets sheet, with the chosen name column and
the numeric `itemid` column (their discovery and the explicit error when they
are missing concern raw sheet shape outside the model). -/
structure Asset where
  name : String := ""
  itemid : Int := 0
deriving DecidableEq

/-- Model of `read_asset_id_from_excel` from the source: a falsy (absent or empty)
truck number yields `(None, None)`; otherwise the first row whose normalized
name equals the target, else the first row whose normalized name contains it
as a substring, else `(None, None)`.  `filter` plus `head?` mirrors the
pandas boolean mask plus `iloc[0]`. -/
def read_asset_id_from_excel (assets : List Asset) (truck : Option String) :
    Option Int × Option String :=
  match truck with
  | none => (none, none)
  | some tn =>
    if tn = "" then (none, none)
    else
      match (assets.filter (fun a => decide (normalize_plate a.name = tn))).head? with
      | some a => (some a.itemid, some a.name)
      | none =>
        match (assets.filter (fun a => strContains (normalize_plate a.name) tn)).head? with
        | some a => (some a.itemid, some a.name)
        | none => (none, none)

/-- MORL warehouse latitude (the source's decimal literal, as an exact
rational). -/
def morlLat : Rat := -28802969095623043 / 100000000000000000

/-- MORL warehouse longitude. -/
def morlLon : Rat := 3604494759379902 / 100000000000000

/-- Python `or` on optional strings: the first operand when truthy, else the
second. -/
def pyOr (a b : Option String) : Option String :=
  match a with
  | some s => if s = "" then b else some s
  | none => b

/-- Truthiness of an optional string (Python: `None` and `""` are falsy). -/
def strTruthy (o : Option String) : Bool :=
  match o with
  | some s => !(s == "")
  | none => false

/-- A key is attached to the payload dict only when its value is truthy
(`**({"rp": v} if v else {})`). -/
def optAttach (o : Option String) : Option String :=
  if strTruthy o then o else none

/-- One entry of the optimizer's per-vehicle `orders` list.  `isDict` is
false for a non-dict element (every field access is guarded by `isinstance`
in the source); `id` and `tm` are `none` when the key is absent or its value
is not an integer, `f`, `rp` and `p` when the key is absent. -/
structure RespEntry where
  isDict : Bool := true
  id : Option Int := none
  tm : Option Int := none
  f : Option Int := none
  rp : Option String := none
  p : Option String := none
deriving DecidableEq

/-- Model of `resp.get('id') if isinstance(resp, dict) else None`. -/
def respId (r : RespEntry) : Option Int :=
  if r.isDict then r.id else none

/-- Model of `resp.get('tm') if isinstance(resp, dict) else None`. -/
def respTm (r : RespEntry) : Option Int :=
  if r.isDict then r.tm else none

/-- Model of `(resp.get('rp') or resp.get('p')) if isinstance(resp, dict) else None`. -/
def respRpRaw (r : RespEntry) : Option String :=
  if r.isDict then pyOr r.rp r.p else none

/-- Black-box external computations of the route builder: the truncated
haversine leg mileage `int(calculate_distance(...) * 1000)` (transcendental,
value-irrelevant to every settled claim), the distance-to-depot pre-sort of
the aggregated table, and the OSRM fallback polyline lookup (`none` models a
failed request, an absent route list or an absent geometry). -/
structure Externals where
  mileage : (Rat × Rat) → (Rat × Rat) → Int := fun _ _ => 0
  sortByDist : List AggRow → List AggRow := id
  osrm : (Rat × Rat) → (Rat × Rat) → Option String := fun _ _ => none

/-- The `order_id_to_name` dict: key `idx + 1` maps to the customer name of
row `idx` of the (sorted) aggregated table. -/
def orderIdToName (df : List AggRow) (oid : Int) : Option String :=
  if oid < 1 then none
  else (df[oid.toNat - 1]?).map AggRow.customerName

/-- The `coord_map` dict: customer name to original coordinates, later rows
overwriting earlier ones, with the depot under the key `MORL` added last and
the depot as the `get` default. -/
def coordMap (df : List AggRow) (nm : String) : Rat × Rat :=
  if nm = "MORL" then (morlLat, morlLon)
  else
    match df.reverse.find? (fun r => decide (r.customerName = nm)) with
    | some r => (r.lat, r.lon)
    | none => (morlLat, morlLon)

/-- Planned-visit-time normalization: a usable optimizer time (an integer
greater than zero) is raised to at least 60 seconds after the previous visit
and at least the window start; otherwise the previous visit plus 600
seconds. -/
def normalizeVt (tm : Option Int) (lastVt tf : Int) : Int :=
  match tm with
  | some t => if t ≤ 0 then lastVt + 600 else max t (max (lastVt + 60) tf)
  | none => lastVt + 600

/-- Recognition of a response entry: its id, when present and a key of
`order_id_to_name`, paired with that customer name. -/
def recogEntry (df : List AggRow) (r : RespEntry) : Option (Int × String) :=
  (respId r).bind (fun oid => (orderIdToName df oid).map (fun nm => (oid, nm)))

/-- A stop of the assembled route plan.  Fields not modelled (`uid`/`u`,
`tf`/`tt`, `r`, `s`, `sf`, `trt`, `st`, `cnm`, `ej`, `cf`, `cmp`, `gfn`,
`callMode`, the address string `a`, and the string serializations of `w`/`c`
in `cargo`) are constants or pure formatting and no claim concerns them. -/
structure Stop where
  id : Int := 0
  n : String := ""
  f : Nat := 0
  ut : Nat := 0
  w : Int := 0
  c : Int := 0
  vt : Int := 0
  i : Nat := 0
  m : Int := 0
  rp : Option String := none
  y : Rat := 0
  x : Rat := 0
deriving DecidableEq

/-- The synthetic start-depot stop (flag 260, zero cost and weight, sequence
index 0, visit time = window start, zero mileage). -/
def startStop (tf : Int) : Stop :=
  { id := 0, n := "MORL", f := 260, ut := 0, w := 0, c := 0, vt := tf, i := 0,
    m := 0, rp := none, y := morlLat, x := morlLon }

/-- Customer stop emitted for a recognized response entry. -/
def mkCustStop (ext : Externals) (df : List AggRow) (prev : Rat × Rat) (r : RespEntry)
    (oid : Int) (nm : String) (coords : Rat × Rat) (vt : Int) (i : Nat) : Stop :=
  let cust := df.find? (fun row => decide (row.customerName = nm))
  let weight : Int := match cust with | some rw => pyInt (rw.tonnage * 1000) | none => 0
  let cost : Int := match cust with | some rw => pyInt rw.amount | none => 0
  let rp1 := respRpRaw r
  let rp2 := if strTruthy rp1 then rp1 else ext.osrm prev coords
  { id := oid, n := nm, f := 0, ut := 900, w := weight, c := cost, vt := vt,
    i := i, m := ext.mileage prev coords, rp := optAttach rp2,
    y := coords.1, x := coords.2 }

/-- The customer-emission loop of the route build: entries whose id is absent
or unrecognized are skipped; an emitted stop advances the previous
coordinates, the last visit time and the sequence index.  Returns the emitted
stops together with the final `(prev_coords, last_visit_time,
sequence_index)` state. -/
def emitCustomers (ext : Externals) (df : List AggRow) (tf : Int) :
    List RespEntry → (Rat × Rat) → Int → Nat → List Stop × ((Rat × Rat) × Int × Nat)
  | [], prev, lastVt, seq => ([], (prev, lastVt, seq))
  | r :: rest, prev, lastVt, seq =>
    match recogEntry df r with
    | none => emitCustomers ext df tf rest prev lastVt seq
    | some (oid, nm) =>
      let coords := coordMap df nm
      let vt := normalizeVt (respTm r) lastVt tf
      let res := emitCustomers ext df tf rest coords vt (seq + 1)
      (mkCustStop ext df prev r oid nm coords vt (seq + 1) :: res.1, res.2)

/-- Python `max` over a non-empty list of integers (`[]` only as an unused
degenerate default). -/
def pyMaxInt : List Int → Int
  | [] => 0
  | h :: t => t.foldl max h

/-- Assembly of `route_orders`: the start-depot stop, the emitted customer
stops, and the end-depot stop (flag 264) whose id is one past the maximal id
so far, whose visit time is the last visit plus 600 seconds, with mileage
back to the depot and the end-warehouse polyline (OSRM fallback when the
optimizer supplied none). -/
def buildRouteOrders (ext : Externals) (df : List AggRow) (tf : Int)
    (opt : List RespEntry) (endRp : Option String) : List Stop :=
  let start := startStop tf
  let res := emitCustomers ext df tf opt (morlLat, morlLon) tf 0
  let custs := res.1
  let prevEnd := res.2.1
  let lastVt := res.2.2.1
  let seqEnd := res.2.2.2
  let mileBack := ext.mileage prevEnd (morlLat, morlLon)
  let finalId := pyMaxInt ((start :: custs).map Stop.id) + 1
  let endRp2 := if strTruthy endRp then endRp else ext.osrm prevEnd (morlLat, morlLon)
  let endS : Stop :=
    { id := finalId, n := "MORL", f := 264, ut := 0, w := 0, c := 0,
      vt := lastVt + 600, i := seqEnd + 1, m := mileBack, rp := optAttach endRp2,
      y := morlLat, x := morlLon }
  start :: custs ++ [endS]

/-- Per-vehicle object of the optimize response.  A `routes` summary list is
read only for the summary `duration` of the unmodelled persistence payload
and is omitted. -/
structure UnitObj where
  orders : List RespEntry := []
deriving DecidableEq

/-- The optimize response: `isDict` distinguishes a JSON object; `error` is
`optimize_result.get('error', 0)`; `unit` is the entry under the key
`str(unit_id)` when present. -/
structure OptimizeResp where
  isDict : Bool := true
  error : Int := 0
  reason : Option String := none
  unit : Option UnitObj := none
deriving DecidableEq

/-- Scan of the response orders, in reverse, for the last end-warehouse
entry (flag 264) and its polyline (`rp` or `p`). -/
def findEndRp (l : List RespEntry) : Option String :=
  match l.reverse.find? (fun r => r.isDict && (r.f == some 264)) with
  | some r => pyOr r.rp r.p
  | none => none

/-- Extraction of the optimized order list and the end-warehouse polyline
from the optimize response (`optimized_orders` stays empty when the response
is not a dict or lacks the unit key). -/
def extractOptimized (resp : OptimizeResp) : List RespEntry × Option String :=
  if resp.isDict then
    match resp.unit with
    | some u => (u.orders, findEndRp u.orders)
    | none => ([], none)
  else ([], none)

/-- The login response: `eid` is the session id when the response is a dict
containing that key; `raw` stands for the printed form of the response used
in the failure message. -/
structure LoginResp where
  eid : Option String := none
  raw : String := ""
deriving DecidableEq

/-- Result dict of `send_orders_and_create_route` (`error` 0 with a planning
URL, or a nonzero code with a message). -/
inductive SendResult
  | ok (message url : String)
  | err (code : Int) (message : String)
deriving DecidableEq

/-- One element of a list-shaped batch response. -/
structure BatchItem where
  isDict : Bool := true
  error : Int := 0
  reason : Option String := none
deriving DecidableEq

/-- The batch (persistence) response: a list, a dict (with
`route_result.get("error", 1)` as `errorD`), or anything else. -/
inductive BatchResp
  | list (items : List BatchItem)
  | dict (errorD : Int) (raw : String)
  | other (raw : String)
deriving DecidableEq

/-- The plan-viewing URL parameterized by the session id. -/
def planningUrl (sid : String) : String :=
  "https://apps.wialon.com/logistics/?lang=en&sid=" ++ sid ++ "#/distrib/step3"

/-- Interpretation of the batch response: a list succeeds when no dict
element carries a nonzero error, else the first erroring element's code and
reason are surfaced; a dict succeeds exactly when its defaulted error is 0;
anything else is the generic unexpected-response failure. -/
def interpretBatch (b : BatchResp) (sid : String) : SendResult :=
  match b with
  | .list items =>
    match items.find? (fun it => it.isDict && !(it.error == 0)) with
    | none => .ok "Route created successfully" (planningUrl sid)
    | some e => .err e.error (e.reason.getD "Unknown error in batch response")
  | .dict errD raw =>
    if errD = 0 then .ok "Route created successfully" (planningUrl sid)
    else .err 1 ("Unexpected or error response: " ++ raw)
  | .other raw => .err 1 ("Unexpected or error response: " ++ raw)

/-- Model of `send_orders_and_create_route` from the source, with the three remote
responses passed as data.  The boolean result records whether the persistence
(batch) call was issued.  The request payloads themselves (pure serialization
to the wire schema) are not modelled; the route build is kept because the
assembled plan is the subject of the invariants proved below. -/
def send_orders_and_create_route (ext : Externals) (login : LoginResp)
    (optResp : OptimizeResp) (batch : BatchResp) (df_grouped : List AggRow)
    (tf : Int) : SendResult × Bool :=
  match login.eid with
  | none => (.err 1 ("Login failed: " ++ login.raw), false)
  | some sid =>
    let dfS := ext.sortByDist df_grouped
    if optResp.isDict ∧ optResp.error ≠ 0 then
      (.err optResp.error (optResp.reason.getD "Optimization failed"), false)
    else
      let ex := extractOptimized optResp
      if ex.1.isEmpty then (.err 1 "No optimized orders in response", false)
      else
        let _routeOrders := buildRouteOrders ext dfS tf ex.1 ex.2
        (interpretBatch batch sid, true)

/-- Outcome rendered by the submission handler. -/
inductive UploadOutcome
  | failure (msg : String)
  | success (url : String)
deriving DecidableEq

/-- The submission path of `run_wialon_uploader` after form validation:
aggregation, asset resolution, then the route builder.  The boolean result
records whether any remote call was made (the login request is the first
one, issued as soon as `send_orders_and_create_route` starts). -/
def run_wialon_uploader (files : List OrderTable) (assets : List Asset)
    (ext : Externals) (login : LoginResp) (optResp : OptimizeResp)
    (batch : BatchResp) (tf : Int) : UploadOutcome × Bool :=
  match process_multiple_excels files with
  | .error e => (.failure ("Error: " ++ e), false)
  | .ok (gdf, truck) =>
    if gdf.isEmpty then
      (.failure "No delivery rows with valid coordinates were found.", false)
    else
      match read_asset_id_from_excel assets truck with
      | (none, _) => (.failure "Could not find unit ID for truck", false)
      | (some uid, _) =>
        if uid = 0 then (.failure "Could not find unit ID for truck", false)
        else
          match send_orders_and_create_route ext login optResp batch gdf tf with
          | (.ok _ url, _) => (.success url, true)
          | (.err _ m, _) => (.failure ("Failed: " ++ m), true)

/-- Specification-side description of which response entries produce customer
stops: the ids of the entries whose id is present and recognized, in response
order. -/
def specRecognizedIds (df : List AggRow) (opt : List RespEntry) : List Int :=
  opt.filterMap (fun r => (recogEntry df r).map Prod.fst)

/-- Specification-side: the customer names of the recognized entries, in
response order. -/
def specRecognizedNames (df : List AggRow) (opt : List RespEntry) : List String :=
  opt.filterMap (fun r => (recogEntry df r).map Prod.snd)

/-- Specification-side: the optimizer-supplied times of the recognized
entries, in response order. -/
def specRecognizedTms (df : List AggRow) (opt : List RespEntry) : List (Option Int) :=
  opt.filterMap (fun r => (recogEntry df r).map (fun _ => respTm r))

/-- Specification-side recurrence of planned visit times: each recognized
entry's time is normalized against the previous visit time, starting from the
window start. -/
def vtSeq (tf : Int) : Int → List (Option Int) → List Int
  | _, [] => []
  | v, tm :: rest => normalizeVt tm v tf :: vtSeq tf (normalizeVt tm v tf) rest

/-- Fixture: an order row with valid coordinates. -/
def inRowBase : InRow :=
  { customerId := some "C1", customerName := "ACME", location := "NAKURU",
    coords := "LAT:-0.5LONG:36.1", rep := "R1", tonnageRaw := "2.0",
    amountRaw := "100", invoice := some "I1" }

/-- Fixture for C4: two rows with the same grouping key and tonnages 2.0 and
3.5. -/
def twoRowTbl : OrderTable :=
  { preamble := [],
    rows := [inRowBase,
             { inRowBase with tonnageRaw := "3.5", amountRaw := "200", invoice := some "I2" }] }

/-- Aggregated row produced by `twoRowTbl`: one row for the shared key, with
summed tonnage and amount and joined invoices. -/
def aggTwoRow : AggRow :=
  { customerId := "C1", customerName := "ACME", location := "NAKURU",
    coords := "LAT:-0.5LONG:36.1", rep := "R1", tonnage := 11/2, amount := 300,
    invoice := "I1, I2", lat := -1/2, lon := 361/10 }

/-- Fixture for C3: the four required columns only (no TONNAGE, AMOUNT,
INVOICE NO, REP). -/
def tblMissingRep : OrderTable :=
  { preamble := [], hasTonnage := false, hasAmount := false,
    hasInvoice := false, hasRep := false, rows := [inRowBase] }

/-- Fixture for C3: REP present but INVOICE NO absent. -/
def tblMissingInvoice : OrderTable :=
  { preamble := [], hasTonnage := false, hasAmount := false,
    hasInvoice := false, hasRep := true, rows := [inRowBase] }

/-- Fixture for C3: only TONNAGE and AMOUNT absent (REP and INVOICE NO
present); the row carries a NaN invoice cell. -/
def tblNoTonAmt : OrderTable :=
  { preamble := [], hasTonnage := false, hasAmount := false,
    hasInvoice := true, hasRep := true, rows := [{ inRowBase with invoice := none }] }

/-- Aggregated row produced by `tblNoTonAmt`. -/
def aggNoTonAmt : AggRow :=
  { customerId := "C1", customerName := "ACME", location := "NAKURU",
    coords := "LAT:-0.5LONG:36.1", rep := "R1", tonnage := 0, amount := 0,
    invoice := "", lat := -1/2, lon := 361/10 }

/-- Fixture for C5 (counterexample): a file whose truck extracts to
`AAA111A` but whose only row has an unparseable coordinate string, so its
aggregated table is empty. -/
def fileEmptyA : OrderTable :=
  { preamble := ["Truck: AAA 111A"], rows := [{ inRowBase with coords := "nowhere" }] }

/-- Fixture for C5 (counterexample): like `fileEmptyA` with truck
`BBB222B`. -/
def fileEmptyB : OrderTable :=
  { preamble := ["Truck: BBB 222B"], rows := [{ inRowBase with coords := "nowhere" }] }

/-- Fixture for C5 (witness): a valid file with truck `AAA111A`. -/
def fileValidA : OrderTable :=
  { preamble := ["Truck: AAA 111A"], rows := [inRowBase] }

/-- Fixture for C5 (witness): a valid file with truck `BBB222B` and a
different customer. -/
def fileValidB : OrderTable :=
  { preamble := ["Truck: BBB 222B"], rows := [{ inRowBase with customerId := some "C2" }] }

/-- Aggregated row of `fileValidA`. -/
def aggValidA : AggRow :=
  { customerId := "C1", customerName := "ACME", location := "NAKURU",
    coords := "LAT:-0.5LONG:36.1", rep := "R1", tonnage := 2, amount := 100,
    invoice := "I1", lat := -1/2, lon := 361/10 }

/-- Aggregated row of `fileValidB`. -/
def aggValidB : AggRow :=
  { aggValidA with customerId := "C2" }

/-- Fixture for C6: the spec's asset table. -/
def assetsC6 : List Asset :=
  [{ name := "KBX 123Z-TRUCK", itemid := 111 }, { name := "KAA999Y", itemid := 222 }]

/-- Fixture for the C6 witness: a single exactly-matching asset. -/
def assetsC6w : List Asset :=
  [{ name := "KAA999Y", itemid := 5 }]

/-- Fixture: a successful login response. -/
def loginOk : LoginResp := { eid := some "SID", raw := "" }

/-- Fixture for the C7 witness: an optimize response with a forced error. -/
def optRespErr : OptimizeResp :=
  { isDict := true, error := 5, reason := some "remote reason", unit := none }

/-- Fixture for the C7 witness: a well-formed optimize response with an empty
per-vehicle order list. -/
def optRespEmpty : OptimizeResp :=
  { isDict := true, error := 0, reason := none, unit := some { orders := [] } }

/-- Fixture: a batch response (never reached in the C7 witness). -/
def batchAny : BatchResp := BatchResp.other "unused"

/-- Fixture: default externals (zero mileage, identity sort, no OSRM
geometry). -/
def extDefault : Externals := {}

theorem isPrefixOf_append_self (p b : List Char) : p.isPrefixOf (p ++ b) = true := by
  induction p with
  | nil => simp [List.isPrefixOf]
  | cons c cs ih => simp [List.isPrefixOf, ih]

theorem listContains_left (p b : List Char) : listContains (p ++ b) p = true := by
  unfold listContains
  rw [List.any_eq_true]
  exact ⟨p ++ b, (List.mem_tails _ _).mpr (List.suffix_refl _), isPrefixOf_append_self p b⟩

theorem listContains_mono (a b p : List Char) (h : listContains b p = true) :
    listContains (a ++ b) p = true := by
  unfold listContains at h ⊢
  rw [List.any_eq_true] at h ⊢
  obtain ⟨t, ht, hp⟩ := h
  exact ⟨t, (List.mem_tails _ _).mpr (((List.mem_tails _ _).mp ht).trans (List.suffix_append a b)), hp⟩

theorem toList_append (s t : String) : (s ++ t).toList = s.toList ++ t.toList :=
  String.data_append s t

theorem strContains_mem_pyJoin (sep : String) :
    ∀ (l : List String), ∀ t ∈ l, strContains (pyJoin sep l) t = true := by
  intro l
  induction l with
  | nil => intro t ht; cases ht
  | cons x rest ih =>
    intro t ht
    cases rest with
    | nil =>
      have hx : t = x := by simpa using ht
      subst hx
      show strContains t t = true
      unfold strContains
      have := listContains_left t.toList []
      simpa using this
    | cons y rs =>
      rcases List.mem_cons.mp ht with h | h
      · subst h
        show strContains (t ++ sep ++ pyJoin sep (y :: rs)) t = true
        unfold strContains
        rw [toList_append, toList_append, List.append_assoc]
        exact listContains_left _ _
      · show strContains (x ++ sep ++ pyJoin sep (y :: rs)) t = true
        unfold strContains
        rw [toList_append]
        exact listContains_mono _ _ _ (ih t h)

theorem filter_head?_eq_find? {α : Type} (p : α → Bool) (l : List α) :
    (l.filter p).head? = l.find? p := by
  induction l with
  | nil => rfl
  | cons a t ih => by_cases h : p a <;> simp [List.filter_cons, List.find?_cons, h, ih]

theorem mem_insertSorted (x z : String) : ∀ l, z ∈ insertSorted x l ↔ z = x ∨ z ∈ l := by
  intro l
  induction l with
  | nil => simp [insertSorted]
  | cons y rest ih =>
    by_cases h : x ≤ y
    · simp [insertSorted, h]
    · simp [insertSorted, h, ih]
      tauto

theorem mem_sortStrings (z : String) : ∀ l, z ∈ sortStrings l ↔ z ∈ l := by
  intro l
  induction l with
  | nil => simp [sortStrings]
  | cons x rest ih => simp [sortStrings, mem_insertSorted, ih]

theorem read_excel_ok_out (t : OrderTable) (out : List AggRow) (truck : Option String)
    (h : read_excel_to_df t = .ok (out, truck)) :
    out = (groupRows ((filteredRows t).map (coerceRow t.hasTonnage t.hasAmount))).filterMap
      attachCoords := by
  simp only [read_excel_to_df] at h
  split at h
  · simp_all
  · split at h <;> simp_all

theorem gKey_groupRowFor (rows : List WorkRow) (k : GroupKey) :
    gKey (groupRowFor rows k) = k := by
  obtain ⟨a, b, c, d, e⟩ := k
  rfl

theorem map_gKey_groupRows (rows : List WorkRow) :
    (groupRows rows).map gKey = distinctKeys rows := by
  unfold groupRows
  rw [List.map_map]
  calc (distinctKeys rows).map (gKey ∘ groupRowFor rows)
      = (distinctKeys rows).map id :=
        List.map_congr_left (fun k _ => gKey_groupRowFor rows k)
    _ = distinctKeys rows := List.map_id _

theorem distinctKeys_loop_nodup (rows : List WorkRow) :
    ∀ acc : List GroupKey, acc.Nodup →
      (rows.foldl (fun acc r => if wKey r ∈ acc then acc else acc ++ [wKey r]) acc).Nodup := by
  induction rows with
  | nil => intro acc h; exact h
  | cons r rest ih =>
    intro acc h
    simp only [List.foldl_cons]
    by_cases hm : wKey r ∈ acc
    · rw [if_pos hm]; exact ih acc h
    · rw [if_neg hm]
      refine ih _ ?_
      rw [List.nodup_append]
      refine ⟨h, List.nodup_singleton _, ?_⟩
      intro a ha hb
      have : a = wKey r := by simpa using hb
      exact hm (this ▸ ha)

theorem distinctKeys_loop_mem (rows : List WorkRow) :
    ∀ (acc : List GroupKey) (x : GroupKey),
      (x ∈ rows.foldl (fun acc r => if wKey r ∈ acc then acc else acc ++ [wKey r]) acc ↔
        x ∈ acc ∨ ∃ r ∈ rows, wKey r = x) := by
  induction rows with
  | nil => simp
  | cons r rest ih =>
    intro acc x
    simp only [List.foldl_cons]
    by_cases hm : wKey r ∈ acc
    · rw [if_pos hm, ih]
      constructor
      · rintro (h | ⟨r', hr', he⟩)
        · exact .inl h
        · exact .inr ⟨r', List.mem_cons_of_mem _ hr', he⟩
      · rintro (h | ⟨r', hr', he⟩)
        · exact .inl h
        · rcases List.mem_cons.mp hr' with rfl | hr2
          · exact .inl (he ▸ hm)
          · exact .inr ⟨r', hr2, he⟩
    · rw [if_neg hm, ih]
      constructor
      · rintro (h | ⟨r', hr', he⟩)
        · rcases List.mem_append.mp h with h2 | h2
          · exact .inl h2
          · have hx : x = wKey r := by simpa using h2
            exact .inr ⟨r, List.mem_cons_self _ _, hx.symm⟩
        · exact .inr ⟨r', List.mem_cons_of_mem _ hr', he⟩
      · rintro (h | ⟨r', hr', he⟩)
        · exact .inl (List.mem_append.mpr (.inl h))
        · rcases List.mem_cons.mp hr' with rfl | hr2
          · exact .inl (List.mem_append.mpr (.inr (by simp [← he])))
          · exact .inr ⟨r', hr2, he⟩

theorem distinctKeys_nodup (rows : List WorkRow) : (distinctKeys rows).Nodup :=
  distinctKeys_loop_nodup rows [] List.nodup_nil

theorem mem_distinctKeys (rows : List WorkRow) (x : GroupKey) :
    x ∈ distinctKeys rows ↔ x ∈ rows.map wKey := by
  rw [distinctKeys, distinctKeys_loop_mem rows [] x]
  simp [List.mem_map, eq_comm]

/-- Claim C2 (counterexample): the string `LAT:1LONG:2LONG:3` is not of the
exact `LAT:<num>LONG:<num>` form, yet `extract_coordinates` returns the
parsed pair `(1, 2)` rather than the absent pair. -/
theorem C2_counterexample :
    specExactCoordForm "LAT:1LONG:2LONG:3" = false ∧
    extract_coordinates "LAT:1LONG:2LONG:3" = (some 1, some 2) := by
  with_unfolding_all decide

/-- Claim C2 (amended): `extract_coordinates` returns the absent pair for
every string that does not contain both `LAT:` and `LONG:` as substrings, and
for every string whose derived latitude or longitude fragment fails numeric
parsing; and every aggregated row of a successfully read table carries a
coordinate string that parses to exactly its stored latitude and
longitude (rows with unparseable coordinates are excluded). -/
theorem C2_amended :
    (∀ s : String, ¬(strContains s "LAT:" = true ∧ strContains s "LONG:" = true) →
      extract_coordinates s = (none, none)) ∧
    (∀ s : String, pyFloat (latFrag s) = none ∨ pyFloat (longFrag s) = none →
      extract_coordinates s = (none, none)) ∧
    (∀ (t : OrderTable) (out : List AggRow) (truck : Option String),
      read_excel_to_df t = .ok (out, truck) →
      ∀ r ∈ out, extract_coordinates r.coords = (some r.lat, some r.lon)) := by
  refine ⟨?_, ?_, ?_⟩
  · intro s h
    unfold extract_coordinates
    rw [if_neg h]
  · intro s h
    unfold extract_coordinates
    by_cases hc : strContains s "LAT:" = true ∧ strContains s "LONG:" = true
    · rw [if_pos hc]
      cases hl : pyFloat (latFrag s) with
      | none => rfl
      | some la =>
        cases hk : pyFloat (longFrag s) with
        | none => rfl
        | some lo =>
          rw [hl, hk] at h
          rcases h with h | h <;> simp at h
    · rw [if_neg hc]
  · intro t out truck hok r hr
    rw [read_excel_ok_out t out truck hok] at hr
    obtain ⟨g, _, hat⟩ := List.mem_filterMap.mp hr
    unfold attachCoords at hat
    cases hxy : extract_coordinates g.coords with
    | mk o1 o2 =>
      rw [hxy] at hat
      cases o1 with
      | none => simp at hat
      | some la =>
        cases o2 with
        | none => simp at hat
        | some lo =>
          simp only [Option.some.injEq] at hat
          rw [← hat]
          exact hxy

/-- Claim C3: with only the four required columns present (REP, INVOICE NO,
TONNAGE and AMOUNT all absent) the aggregator crashes — the `groupby` raises
`KeyError` on the missing REP column, and with REP present but INVOICE NO
absent the `.agg` dict raises on the missing aggregation column, so the
claimed tolerant behaviour only holds for absent TONNAGE and AMOUNT (which do
default to zero, with a NaN invoice cell joined into an empty string). -/
theorem C3_optional_columns :
    read_excel_to_df tblMissingRep = .error "KeyError: 'REP'" ∧
    read_excel_to_df tblMissingInvoice
      = .error "KeyError: Column(s) ['INVOICE NO'] do not exist" ∧
    read_excel_to_df tblNoTonAmt = .ok ([aggNoTonAmt], none) := by
  with_unfolding_all decide

/-- Claim C4: aggregating two rows with the same grouping tuple and tonnages
2.0 and 3.5 yields exactly one row with tonnage 5.5; in general the grouping
stage produces duplicate-free keys, exactly the keys of the filtered input
rows, and each aggregated row's TONNAGE and AMOUNT are the sums over the
input rows of its tuple. -/
theorem C4_aggregation_sums :
    read_excel_to_df twoRowTbl = .ok ([aggTwoRow], none) ∧
    (∀ rows : List WorkRow,
      ((groupRows rows).map gKey).Nodup ∧
      (∀ k : GroupKey, k ∈ (groupRows rows).map gKey ↔ k ∈ rows.map wKey) ∧
      (groupRows rows).all (fun g =>
        decide (g.tonnage =
            ((rows.filter (fun r => decide (wKey r = gKey g))).map WorkRow.tonnage).sum ∧
          g.amount =
            ((rows.filter (fun r => decide (wKey r = gKey g))).map WorkRow.amount).sum))
        = true) := by
  constructor
  · with_unfolding_all decide
  · intro rows
    refine ⟨?_, ?_, ?_⟩
    · rw [map_gKey_groupRows]; exact distinctKeys_nodup rows
    · intro k; rw [map_gKey_groupRows]; exact mem_distinctKeys rows k
    · rw [List.all_eq_true]
      intro g hg
      obtain ⟨k, _, rfl⟩ := List.mem_map.mp hg
      rw [gKey_groupRowFor]
      exact decide_eq_true ⟨rfl, rfl⟩

/-- Witness for the amended C2 at concrete inputs: a string without the
markers, and a string whose latitude fragment is non-numeric, both yield the
absent pair. -/
theorem C2_amended_witness :
    extract_coordinates "xyz" = (none, none) ∧
    extract_coordinates "LAT:aLONG:2" = (none, none) :=
  ⟨C2_amended.1 "xyz" (by with_unfolding_all decide),
   C2_amended.2.1 "LAT:aLONG:2" (Or.inl (by with_unfolding_all decide))⟩

/-- Claim C6: asset resolution returns the absent pair for an absent or empty
identifier; otherwise it returns the first exactly-matching row, and only
when no exact match exists the first containment-matching row, and the absent
pair when neither exists.  For the spec's table, exact match fails and
containment returns the first row's unit id 111. -/
theorem C6_asset_matching (assets : List Asset) (tn : String) :
    read_asset_id_from_excel assets none = (none, none) ∧
    read_asset_id_from_excel assets (some "") = (none, none) ∧
    (tn ≠ "" →
      (∀ a : Asset,
        assets.find? (fun x => decide (normalize_plate x.name = tn)) = some a →
        read_asset_id_from_excel assets (some tn) = (some a.itemid, some a.name)) ∧
      (assets.find? (fun x => decide (normalize_plate x.name = tn)) = none →
        (∀ a : Asset,
          assets.find? (fun x => strContains (normalize_plate x.name) tn) = some a →
          read_asset_id_from_excel assets (some tn) = (some a.itemid, some a.name)) ∧
        (assets.find? (fun x => strContains (normalize_plate x.name) tn) = none →
          read_asset_id_from_excel assets (some tn) = (none, none)))) ∧
    ((assetsC6.find? (fun x => decide (normalize_plate x.name = "KBX123Z")) = none) ∧
      read_asset_id_from_excel assetsC6 (some "KBX123Z")
        = (some 111, some "KBX 123Z-TRUCK")) := by
  refine ⟨rfl, rfl, ?_, by with_unfolding_all decide⟩
  intro hne
  constructor
  · intro a ha
    simp only [read_asset_id_from_excel]
    rw [if_neg hne, filter_head?_eq_find?, ha]
  · intro hnone
    constructor
    · intro a ha
      simp only [read_asset_id_from_excel]
      rw [if_neg hne, filter_head?_eq_find?, hnone, filter_head?_eq_find?, ha]
    · intro hnone2
      simp only [read_asset_id_from_excel]
      rw [if_neg hne, filter_head?_eq_find?, hnone, filter_head?_eq_find?, hnone2]

/-- Witness for C6: a single-row asset table with an exact match resolves to
that row's id and name. -/
theorem C6_asset_matching_witness :
    read_asset_id_from_excel assetsC6w (some "KAA999Y") = (some 5, some "KAA999Y") :=
  (C6_asset_matching assetsC6w "KAA999Y").2.2.1 (by decide)
    |>.1 { name := "KAA999Y", itemid := 5 } (by with_unfolding_all decide)

/-- Claim C7: after a successful login, a dict optimize response with a
nonzero error code makes the route builder return that code with the
remote-supplied reason without issuing the persistence call, and an empty (or
missing) per-vehicle order list makes it return the
`No optimized orders in response` failure, also without the persistence
call. -/
theorem C7_optimize_failure_handling (ext : Externals) (login : LoginResp)
    (optResp : OptimizeResp) (batch : BatchResp) (df : List AggRow) (tf : Int) :
    (∀ sid : String, login.eid = some sid → optResp.isDict = true → optResp.error ≠ 0 →
      send_orders_and_create_route ext login optResp batch df tf
        = (SendResult.err optResp.error (optResp.reason.getD "Optimization failed"), false)) ∧
    (∀ sid : String, login.eid = some sid →
      ¬(optResp.isDict = true ∧ optResp.error ≠ 0) →
      (extractOptimized optResp).1 = [] →
      send_orders_and_create_route ext login optResp batch df tf
        = (SendResult.err 1 "No optimized orders in response", false)) := by
  constructor
  · intro sid hl hd he
    unfold send_orders_and_create_route
    rw [hl]
    simp only
    rw [if_pos ⟨hd, he⟩]
  · intro sid hl hno hempty
    unfold send_orders_and_create_route
    rw [hl]
    simp only
    rw [if_neg hno, hempty]
    rfl

/-- Witness for C7: with a concrete failing optimize response the error and
reason are surfaced and no batch call is made, and with a concrete empty
order list the no-orders failure is surfaced. -/
theorem C7_optimize_failure_handling_witness :
    send_orders_and_create_route extDefault loginOk optRespErr batchAny [] 0
        = (SendResult.err 5 "remote reason", false) ∧
    send_orders_and_create_route extDefault loginOk optRespEmpty batchAny [] 0
        = (SendResult.err 1 "No optimized orders in response", false) := by
  constructor
  · have h := (C7_optimize_failure_handling extDefault loginOk optRespErr batchAny [] 0).1
      "SID" rfl rfl (by decide)
    simpa using h
  · have h := (C7_optimize_failure_handling extDefault loginOk optRespEmpty batchAny [] 0).2
      "SID" rfl (by decide) rfl
    simpa using h

theorem specRecognizedIds_cons_none (df : List AggRow) (r : RespEntry) (rest : List RespEntry)
    (h : recogEntry df r = none) :
    specRecognizedIds df (r :: rest) = specRecognizedIds df rest := by
  simp [specRecognizedIds, List.filterMap_cons, h]

theorem specRecognizedIds_cons_some (df : List AggRow) (r : RespEntry) (rest : List RespEntry)
    (oid : Int) (nm : String) (h : recogEntry df r = some (oid, nm)) :
    specRecognizedIds df (r :: rest) = oid :: specRecognizedIds df rest := by
  simp [specRecognizedIds, List.filterMap_cons, h]

theorem specRecognizedNames_cons_none (df : List AggRow) (r : RespEntry) (rest : List RespEntry)
    (h : recogEntry df r = none) :
    specRecognizedNames df (r :: rest) = specRecognizedNames df rest := by
  simp [specRecognizedNames, List.filterMap_cons, h]

theorem specRecognizedNames_cons_some (df : List AggRow) (r : RespEntry) (rest : List RespEntry)
    (oid : Int) (nm : String) (h : recogEntry df r = some (oid, nm)) :
    specRecognizedNames df (r :: rest) = nm :: specRecognizedNames df rest := by
  simp [specRecognizedNames, List.filterMap_cons, h]

theorem specRecognizedTms_cons_none (df : List AggRow) (r : RespEntry) (rest : List RespEntry)
    (h : recogEntry df r = none) :
    specRecognizedTms df (r :: rest) = specRecognizedTms df rest := by
  simp [specRecognizedTms, List.filterMap_cons, h]

theorem specRecognizedTms_cons_some (df : List AggRow) (r : RespEntry) (rest : List RespEntry)
    (oid : Int) (nm : String) (h : recogEntry df r = some (oid, nm)) :
    specRecognizedTms df (r :: rest) = respTm r :: specRecognizedTms df rest := by
  simp [specRecognizedTms, List.filterMap_cons, h]

theorem emitCustomers_spec (ext : Externals) (df : List AggRow) (tf : Int) :
    ∀ (opt : List RespEntry) (prev : Rat × Rat) (v : Int) (s : Nat),
      (∀ st ∈ (emitCustomers ext df tf opt prev v s).1, st.f = 0) ∧
      (emitCustomers ext df tf opt prev v s).1.map Stop.i
        = List.range' (s + 1) (emitCustomers ext df tf opt prev v s).1.length ∧
      (emitCustomers ext df tf opt prev v s).2.2.2
        = s + (emitCustomers ext df tf opt prev v s).1.length ∧
      (emitCustomers ext df tf opt prev v s).1.map Stop.id = specRecognizedIds df opt ∧
      (emitCustomers ext df tf opt prev v s).1.map Stop.n = specRecognizedNames df opt ∧
      (emitCustomers ext df tf opt prev v s).1.map Stop.vt
        = vtSeq tf v (specRecognizedTms df opt) ∧
      (emitCustomers ext df tf opt prev v s).2.2.1
        = ((emitCustomers ext df tf opt prev v s).1.map Stop.vt).getLastD v := by
  intro opt
  induction opt with
  | nil =>
    intro prev v s
    simp [emitCustomers, specRecognizedIds, specRecognizedNames, specRecognizedTms, vtSeq]
  | cons r rest ih =>
    intro prev v s
    cases hrec : recogEntry df r with
    | none =>
      obtain ⟨hf, hi, hseq, hid, hn, hvt, hlast⟩ := ih prev v s
      simp only [emitCustomers, hrec]
      rw [specRecognizedIds_cons_none df r rest hrec,
        specRecognizedNames_cons_none df r rest hrec]
      have htm := specRecognizedTms_cons_none df r rest hrec
      rw [htm]
      exact ⟨hf, hi, hseq, hid, hn, hvt, hlast⟩
    | some p =>
      obtain ⟨oid, nm⟩ := p
      obtain ⟨hf, hi, hseq, hid, hn, hvt, hlast⟩ :=
        ih (coordMap df nm) (normalizeVt (respTm r) v tf) (s + 1)
      simp only [emitCustomers, hrec]
      rw [specRecognizedIds_cons_some df r rest oid nm hrec,
        specRecognizedNames_cons_some df r rest oid nm hrec,
        specRecognizedTms_cons_some df r rest oid nm hrec]
      refine ⟨?_, ?_, ?_, ?_, ?_, ?_, ?_⟩
      · intro st hst
        rcases List.mem_cons.mp hst with rfl | hst2
        · rfl
        · exact hf st hst2
      · simp only [List.map_cons, List.length_cons]
        rw [List.range'_succ]
        exact congrArg (List.cons (s + 1)) hi
      · simp only [List.length_cons]
        rw [hseq]
        omega
      · simp only [List.map_cons]
        exact congrArg (List.cons oid) hid
      · simp only [List.map_cons]
        exact congrArg (List.cons nm) hn
      · simp only [List.map_cons]
        rw [vtSeq]
        exact congrArg (List.cons (normalizeVt (respTm r) v tf)) hvt
      · simp only [List.map_cons]
        rw [List.getLastD_cons]
        exact hlast

theorem vtSeq_strict_mono (tf : Int) :
    ∀ (tms : List (Option Int)) (v : Int),
      List.Chain' (fun a b : Int => a < b) (v :: vtSeq tf v tms) := by
  intro tms
  induction tms with
  | nil => intro v; simp [vtSeq]
  | cons tm rest ih =>
    intro v
    rw [vtSeq, List.chain'_cons]
    refine ⟨?_, ih (normalizeVt tm v tf)⟩
    cases tm with
    | none => simp only [normalizeVt]; omega
    | some t =>
      simp only [normalizeVt]
      by_cases h : t ≤ 0
      · simp only [if_pos h]; omega
      · simp only [if_neg h]; omega

theorem vtSeq_bounds (tf : Int) :
    ∀ (tms : List (Option Int)) (v : Int), tf ≤ v →
      List.Chain' (fun p c : Int => tf ≤ c ∧ p + 60 ≤ c) (v :: vtSeq tf v tms) := by
  intro tms
  induction tms with
  | nil => intro v _; simp [vtSeq]
  | cons tm rest ih =>
    intro v hv
    rw [vtSeq, List.chain'_cons]
    have hstep : tf ≤ normalizeVt tm v tf ∧ v + 60 ≤ normalizeVt tm v tf := by
      cases tm with
      | none => simp only [normalizeVt]; omega
      | some t =>
        simp only [normalizeVt]
        by_cases h : t ≤ 0
        · simp only [if_pos h]; omega
        · simp only [if_neg h]; omega
    exact ⟨hstep, ih (normalizeVt tm v tf) hstep.1⟩

theorem buildRouteOrders_filter_customers (ext : Externals) (df : List AggRow) (tf : Int)
    (opt : List RespEntry) (endRp : Option String) :
    (buildRouteOrders ext df tf opt endRp).filter (fun st => st.f == 0)
      = (emitCustomers ext df tf opt (morlLat, morlLon) tf 0).1 := by
  obtain ⟨hf, -, -, -, -, -, -⟩ := emitCustomers_spec ext df tf opt (morlLat, morlLon) tf 0
  simp only [buildRouteOrders, List.filter_cons, List.filter_append]
  norm_num [startStop, List.filter_cons]
  exact hf

/-- Claim C10: during route-plan assembly every optimizer entry whose id is
missing or unrecognized is silently skipped (the assembly is total and emits
no stop for it), so the plan's customer stops carry exactly the ids and names
of the recognized entries, in response order. -/
theorem C10_unrecognized_entries_skipped (ext : Externals) (df : List AggRow) (tf : Int)
    (opt : List RespEntry) (endRp : Option String) :
    ((buildRouteOrders ext df tf opt endRp).filter (fun st => st.f == 0)).map Stop.id
        = specRecognizedIds df opt ∧
    ((buildRouteOrders ext df tf opt endRp).filter (fun st => st.f == 0)).map Stop.n
        = specRecognizedNames df opt := by
  obtain ⟨-, -, -, hid, hn, -, -⟩ := emitCustomers_spec ext df tf opt (morlLat, morlLon) tf 0
  rw [buildRouteOrders_filter_customers]
  exact ⟨hid, hn⟩

theorem range_succ_succ (n : Nat) : List.range (n + 2) = 0 :: (List.range' 1 n ++ [n + 1]) := by
  rw [List.range_eq_range', List.range'_succ, List.range'_concat]
  simp [Nat.add_comm]

/-- Claim C1: every assembled route plan has exactly one start-depot stop
(flag 260) and one end-depot stop (flag 264); the start depot is first with
sequence index 0, the end depot is last, every stop strictly between them is
a customer stop (flag 0), and the sequence indices are exactly `0..n+1` for a
plan with `n` customer stops, which therefore has `n + 2` stops. -/
theorem C1_route_plan_shape (ext : Externals) (df : List AggRow) (tf : Int)
    (opt : List RespEntry) (endRp : Option String) :
    (buildRouteOrders ext df tf opt endRp).length
        = ((buildRouteOrders ext df tf opt endRp).filter (fun st => st.f == 0)).length + 2 ∧
    (buildRouteOrders ext df tf opt endRp).countP (fun st => st.f == 260) = 1 ∧
    (buildRouteOrders ext df tf opt endRp).countP (fun st => st.f == 264) = 1 ∧
    ((buildRouteOrders ext df tf opt endRp).head?).map (fun st => (st.f, st.i))
        = some (260, 0) ∧
    ((buildRouteOrders ext df tf opt endRp).getLast?).map Stop.f = some 264 ∧
    (((buildRouteOrders ext df tf opt endRp).drop 1).dropLast).all (fun st => st.f == 0)
        = true ∧
    (buildRouteOrders ext df tf opt endRp).map Stop.i
        = List.range (buildRouteOrders ext df tf opt endRp).length := by
  obtain ⟨hf, hi, hseq, -, -, -, -⟩ :=
    emitCustomers_spec ext df tf opt (morlLat, morlLon) tf 0
  have hfilt := buildRouteOrders_filter_customers ext df tf opt endRp
  refine ⟨?_, ?_, ?_, ?_, ?_, ?_, ?_⟩
  · rw [hfilt]
    simp only [buildRouteOrders, List.length_cons, List.length_append, List.length_singleton,
      List.length_nil]
  · have h0 : (emitCustomers ext df tf opt (morlLat, morlLon) tf 0).1.countP
        (fun st => st.f == 260) = 0 :=
      List.countP_eq_zero.mpr (fun a ha => by simp [hf a ha])
    simp [buildRouteOrders, List.countP_cons, List.countP_append, startStop, h0]
  · have h0 : (emitCustomers ext df tf opt (morlLat, morlLon) tf 0).1.countP
        (fun st => st.f == 264) = 0 :=
      List.countP_eq_zero.mpr (fun a ha => by simp [hf a ha])
    simp [buildRouteOrders, List.countP_cons, List.countP_append, startStop, h0]
  · simp [buildRouteOrders, startStop]
  · simp only [buildRouteOrders]
    rw [List.getLast?_concat]
    rfl
  · simp only [buildRouteOrders, List.cons_append, List.drop_one, List.tail_cons,
      List.dropLast_concat]
    exact List.all_eq_true.mpr (fun a ha => by simp [hf a ha])
  · simp only [buildRouteOrders, List.map_append, List.map_cons, List.map_nil, startStop,
      List.length_append, List.length_cons, List.length_nil]
    rw [hi, hseq]
    norm_num
    rw [range_succ_succ]

/-- Claim C8: the visit times of the assembled plan are exactly the window
start, then the `vtSeq` normalization of the recognized optimizer times (a
usable positive integer time is raised to at least 60 seconds after the
previous visit and at least the window start, and an unusable one defaults to
the previous visit plus 600 seconds), then the last customer visit plus 600
seconds for the end depot; every customer visit is at least 60 seconds after
the previous stop's visit and at least the window start, and visit times are
strictly increasing along the whole plan. -/
theorem C8_visit_times (ext : Externals) (df : List AggRow) (tf : Int)
    (opt : List RespEntry) (endRp : Option String) :
    (buildRouteOrders ext df tf opt endRp).map Stop.vt
        = (tf :: vtSeq tf tf (specRecognizedTms df opt))
          ++ [(vtSeq tf tf (specRecognizedTms df opt)).getLastD tf + 600] ∧
    List.Chain' (fun a b : Stop => a.vt < b.vt) (buildRouteOrders ext df tf opt endRp) ∧
    List.Chain' (fun p c : Int => tf ≤ c ∧ p + 60 ≤ c)
        (tf :: vtSeq tf tf (specRecognizedTms df opt)) := by
  obtain ⟨-, -, -, -, -, hvt, hlast⟩ :=
    emitCustomers_spec ext df tf opt (morlLat, morlLon) tf 0
  have hmap : (buildRouteOrders ext df tf opt endRp).map Stop.vt
      = (tf :: vtSeq tf tf (specRecognizedTms df opt))
        ++ [(vtSeq tf tf (specRecognizedTms df opt)).getLastD tf + 600] := by
    simp only [buildRouteOrders, List.map_append, List.map_cons, List.map_nil, startStop]
    rw [hvt, hlast, hvt]
  refine ⟨hmap, ?_, vtSeq_bounds tf (specRecognizedTms df opt) tf le_rfl⟩
  have hchain : List.Chain' (fun a b : Int => a < b)
      ((buildRouteOrders ext df tf opt endRp).map Stop.vt) := by
    rw [hmap, List.chain'_append]
    refine ⟨vtSeq_strict_mono tf (specRecognizedTms df opt) tf, List.chain'_singleton _, ?_⟩
    intro x hx y hy
    rw [List.getLast?_cons] at hx
    simp only [Option.mem_def, Option.some.injEq] at hx
    simp only [List.head?_cons, Option.mem_def, Option.some.injEq] at hy
    rw [← hx, ← hy]
    rw [List.getLastD_eq_getLast?]
    omega
  exact (List.chain'_map Stop.vt).mp hchain

theorem strContains_append_right (s t pat : String) (h : strContains t pat = true) :
    strContains (s ++ t) pat = true := by
  unfold strContains at h ⊢
  rw [toList_append]
  exact listContains_mono _ _ _ h

/-- Claim C5 (counterexample): two order files whose extracted vehicle
identifiers normalize to the distinct non-empty strings `AAA111A` and
`BBB222B`, but which yield no valid aggregated rows, make
`process_multiple_excels` raise the no-valid-data failure first --- a
validation failure that names neither identifier. -/
theorem C5_counterexample :
    scanTruck fileEmptyA.preamble = some "AAA111A" ∧
    scanTruck fileEmptyB.preamble = some "BBB222B" ∧
    process_multiple_excels [fileEmptyA, fileEmptyB] = .error noValidDataMsg ∧
    strContains noValidDataMsg "AAA111A" = false ∧
    strContains noValidDataMsg "BBB222B" = false := by
  with_unfolding_all decide

/-- Claim C5 (amended): when at least one submitted file yields aggregated
rows, two or more distinct non-empty normalized identifiers make
`process_multiple_excels` raise the multiple-truck validation failure, whose
message names every distinct identifier, and the submission aborts before any
remote call; with zero or one distinct identifier no such failure is raised
(the result is either the no-valid-data failure or success). -/
theorem C5_multiple_truck_validation (files : List OrderTable) (assets : List Asset)
    (ext : Externals) (login : LoginResp) (optResp : OptimizeResp) (batch : BatchResp)
    (tf : Int) (gs : List (List AggRow)) (ts : List String)
    (h : readAll files = .ok (gs, ts)) :
    (gs ≠ [] → 2 ≤ ts.length →
      process_multiple_excels files = .error (multiTruckMsg ts) ∧
      (∀ t ∈ ts, strContains (multiTruckMsg ts) t = true) ∧
      (run_wialon_uploader files assets ext login optResp batch tf).2 = false) ∧
    (ts.length ≤ 1 →
      process_multiple_excels files = .error noValidDataMsg ∨
      ∃ res, process_multiple_excels files = .ok res) := by
  constructor
  · intro hgs hts
    have hne : gs.isEmpty = false := by
      cases gs with
      | nil => exact absurd rfl hgs
      | cons a l => rfl
    have hproc : process_multiple_excels files = .error (multiTruckMsg ts) := by
      simp only [process_multiple_excels, h, hne]
      rw [if_pos (by omega : 1 < ts.length)]
      rfl
    refine ⟨hproc, ?_, ?_⟩
    · intro t ht
      unfold multiTruckMsg
      exact strContains_append_right _ _ _
        (strContains_mem_pyJoin ", " (sortStrings ts) t ((mem_sortStrings t ts).mpr ht))
    · simp only [run_wialon_uploader, hproc]
  · intro hts
    by_cases hg : gs.isEmpty
    · left
      simp only [process_multiple_excels, h, hg]
      rw [if_pos trivial]
    · right
      refine ⟨(dedupAgg gs.flatten, ts.head?), ?_⟩
      simp only [process_multiple_excels, h, hg]
      rw [if_neg (by omega : ¬ 1 < ts.length)]
      simp [Bool.not_eq_true] at hg
      rw [if_neg (by simp [hg])]

/-- Witness for the amended C5: two concrete valid files with distinct trucks
produce the multiple-truck failure whose message contains both identifiers,
and the uploader makes no remote call. -/
theorem C5_multiple_truck_validation_witness :
    process_multiple_excels [fileValidA, fileValidB]
      = .error (multiTruckMsg ["AAA111A", "BBB222B"]) ∧
    strContains (multiTruckMsg ["AAA111A", "BBB222B"]) "AAA111A" = true ∧
    strContains (multiTruckMsg ["AAA111A", "BBB222B"]) "BBB222B" = true ∧
    (run_wialon_uploader [fileValidA, fileValidB] [] extDefault loginOk optRespErr batchAny 0).2
      = false := by
  have h := (C5_multiple_truck_validation [fileValidA, fileValidB] [] extDefault loginOk
    optRespErr batchAny 0 [[aggValidA], [aggValidB]] ["AAA111A", "BBB222B"]
    (by with_unfolding_all decide)).1 (by with_unfolding_all decide) (by decide)
  exact ⟨h.1, h.2.1 "AAA111A" (by decide), h.2.1 "BBB222B" (by decide), h.2.2⟩

theorem extractTruckL_labeled (body : List Char) (hclass : body.all p1ClassCh = true)
    (hlen : 4 ≤ body.length) (hnosp : body.takeWhile isSpaceCh = []) :
    extractTruckL ('T' :: 'r' :: 'u' :: 'c' :: 'k' :: ':' :: body)
      = some (String.mk (normChars body)) := by
  have hrun : body.takeWhile p1ClassCh = body :=
    List.takeWhile_eq_self_iff.mpr (List.all_eq_true.mp hclass)
  have h4 : spacesSuffixes body = [body] := by
    unfold spacesSuffixes
    rw [hnosp]
    rfl
  have h6 : p1AfterTruck (':' :: body) = some body := by
    unfold p1AfterTruck
    rw [show spacesSuffixes (':' :: body) = [':' :: body] from rfl]
    simp only [List.findSome?_cons, List.findSome?_nil]
    rw [show labelSuffixes (':' :: body) = [':' :: body] from rfl]
    simp only [List.findSome?_cons, List.findSome?_nil]
    rw [show spacesSuffixes (':' :: body) = [':' :: body] from rfl]
    simp only [List.findSome?_cons, List.findSome?_nil]
    rw [show colonSuffixes (':' :: body) = [body, ':' :: body] from rfl]
    simp only [List.findSome?_cons, List.findSome?_nil]
    rw [h4]
    simp only [List.findSome?_cons, List.findSome?_nil]
    rw [hrun, if_pos hlen]
  have hlit : matchLitI ['t', 'r', 'u', 'c', 'k']
      ('T' :: 'r' :: 'u' :: 'c' :: 'k' :: ':' :: body) = some (':' :: body) := rfl
  have hp1 : p1Search ('T' :: 'r' :: 'u' :: 'c' :: 'k' :: ':' :: body) = some body := by
    simp only [p1Search, hlit, h6]
  unfold extractTruckL
  rw [hp1]
  rfl

/-- Claim C9 (counterexample): extraction is not hyphenation-insensitive ---
the bare plate `KBX 123Z` (internal space) extracts to `KBX123Z`, while the
same plate written `KBX-123Z` (internal hyphen) extracts to nothing, because
the bare-plate pattern `[A-Z]{2,3}\s*\d{3,4}\s*[A-Z]` admits whitespace but
not hyphens between its blocks. -/
theorem C9_counterexample :
    extract_truck_number_from_text "KBX 123Z" = some "KBX123Z" ∧
    extract_truck_number_from_text "KBX-123Z" = none := by
  with_unfolding_all decide

/-- Claim C9 (amended): labeled identifiers are insensitive to internal
spacing and hyphenation --- for any identifier body of letters, digits,
hyphens and spaces (length at least 4, not beginning with whitespace),
extraction from `Truck:` followed by the body returns the normalized body, so
bodies with equal normalizations extract identically; in particular both
`Truck No. KBX-123 Z` and `Truck:KBX123Z` yield `KBX123Z`.  Bare plates
tolerate internal spacing between the letter and digit blocks but not
hyphenation. -/
theorem C9_spacing_hyphenation :
    (∀ body : List Char, body.all p1ClassCh = true → 4 ≤ body.length →
      body.takeWhile isSpaceCh = [] →
      extractTruckL ('T' :: 'r' :: 'u' :: 'c' :: 'k' :: ':' :: body)
        = some (String.mk (normChars body))) ∧
    extract_truck_number_from_text "Truck No. KBX-123 Z" = some "KBX123Z" ∧
    extract_truck_number_from_text "Truck:KBX123Z" = some "KBX123Z" ∧
    extract_truck_number_from_text "KBX 123Z" = some "KBX123Z" ∧
    extract_truck_number_from_text "KBX-123Z" = none := by
  refine ⟨extractTruckL_labeled, ?_, ?_, ?_, ?_⟩ <;> with_unfolding_all decide

/-- Witness for the amended C9: the labeled general statement applied to the
concrete body `KB-12`. -/
theorem C9_spacing_hyphenation_witness :
    extractTruckL ('T' :: 'r' :: 'u' :: 'c' :: 'k' :: ':' :: "KB-12".toList)
      = some (String.mk (normChars "KB-12".toList)) :=
  C9_spacing_hyphenation.1 "KB-12".toList (by decide) (by decide) (by decide)
